import Mathlib

/-!
Shallow embedding of the Symbol Record Synthesis and Library Merge Engine
of `JLC2KiCadLib` (files `JLC2KiCadLib/symbol/symbol.py` and
`JLC2KiCadLib/helper.py`), together with theorems settling the frozen
claims about it.

Text is modelled as `List Char`.  The file embeds, from the source:

* the library container templates (`template_lib_header`,
  `template_lib_footer`);
* the merge engine `update_library` (substring containment test, the
  regex replacement `re.sub(r'  \(symbol "N" (\n|.)*?\n  \)', repl, s,
  flags=re.DOTALL, count=1)` modelled as leftmost-shortest literal span
  replacement, the `rfind`-based insertion before the trailing sentinel,
  and the write-without-truncate of the insertion branch);
* the title sanitisation chain of `create_symbol`;
* the property block synthesizer `get_type_values_properties`;
* the per-sub-part assembly loop of `create_symbol` (network responses
  and the drawing text emitted by the shape-handler registry are inputs,
  since both are external collaborators).
-/

set_option maxRecDepth 20000

abbrev Str := List Char

/-- Character data of a string literal. -/
def S (s : String) : Str := s.data

/-- Decidable test that `p` is a prefix of `s`. -/
def isPre : Str → Str → Bool
  | [], _ => true
  | _ :: _, [] => false
  | a :: p, b :: s => a = b && isPre p s

/-- `pat` occurs in `s` at position `i` (decidable). -/
def Occurs (pat s : Str) (i : Nat) : Prop := isPre pat (s.drop i) = true

instance (pat s : Str) (i : Nat) : Decidable (Occurs pat s i) := by
  unfold Occurs; infer_instance

/-- Index of the first occurrence of `pat` in `s`
(the position at which Python's `re` / `str.find` machinery locates a
literal pattern). -/
def findSub (pat : Str) : Str → Option Nat
  | [] => if isPre pat [] then some 0 else none
  | a :: t => if isPre pat (a :: t) then some 0 else (findSub pat t).map (· + 1)

/-- Python's `pat in s` substring test. -/
def containsB (pat s : Str) : Bool := (findSub pat s).isSome

/-- Index of the last occurrence of character `c` in `s`
(Python's `str.rfind` restricted to one-character needles, `none` for
the `-1` result). -/
def rfindChar (c : Char) : Str → Option Nat
  | [] => none
  | a :: t =>
    match rfindChar c t with
    | some i => some (i + 1)
    | none => if a = c then some 0 else none

/-- Python's `str.replace` for a one-character needle: every occurrence
of `c` is replaced by `r`. -/
def replaceChar (c : Char) (r : Str) : Str → Str
  | [] => []
  | a :: t => (if a = c then r else [a]) ++ replaceChar c r t

/-- `template_lib_header` from the source. -/
def template_lib_header : Str :=
  S "(kicad_symbol_lib (version 20210201) (generator TousstNicolas/JLC2KiCad_lib)\n"

/-- `template_lib_footer` from the source. -/
def template_lib_footer : Str := S ")\n"

/-- The substring tested by `update_library`:
`f'symbol "{component_title}"' in file_content`. -/
def symbolCheck (name : Str) : Str := S "symbol \"" ++ name ++ S "\""

/-- The literal opening part of the replacement pattern
`rf'  \(symbol "{component_title}" '`. -/
def symbolOpener (name : Str) : Str := S "  (symbol \"" ++ name ++ S "\" "

/-- The literal terminator part `'\n  \)'` of the replacement pattern. -/
def symbolTerm : Str := S "\n  )"

/-- `re.sub(pattern, repl, s, flags=re.DOTALL, count=1)` for the pattern
`rf'  \(symbol "{name}" (\n|.)*?\n  \)'` with a metacharacter-free
`name` and escape-free `repl`: the single leftmost match starts at the
first occurrence of the literal opener and, the inner group being lazy
and dotall, ends at the first subsequent occurrence of the literal
terminator; exactly that span is replaced.  When the pattern has no
match the string is returned unchanged. -/
def reSubOnce (name repl s : Str) : Str :=
  match findSub (symbolOpener name) s with
  | none => s
  | some i =>
    match findSub symbolTerm (s.drop (i + (symbolOpener name).length)) with
    | none => s
    | some k =>
      s.take i ++ repl ++ s.drop (i + (symbolOpener name).length + k + symbolTerm.length)

/-- File content after `seek(0); write(new)` without `truncate()`:
bytes of the old content beyond the written range survive. -/
def writeAt0 (old new : Str) : Str := new ++ old.drop new.length

/-- The insertion branch of `update_library`:
`new_content = file_content[:file_content.rfind(")")] +
template_lib_component + template_lib_footer`, then `seek(0)` and a
write without truncation.  Python's `rfind` returns `-1` when `")"` is
absent, in which case the slice drops the last character. -/
def insertComponent (template_lib_component s : Str) : Str :=
  let front :=
    match rfindChar ')' s with
    | none => s.dropLast
    | some i => s.take i
  writeAt0 s (front ++ template_lib_component ++ template_lib_footer)

/-- `update_library` from the source, as a transformation of the
container file's content: if `symbol "{component_title}"` occurs, either
skip (`skip_existing`) or replace the regex-located span (the replace
branch truncates before writing, so its result is exactly the
substituted text); otherwise insert before the trailing sentinel. -/
def update_library (skip_existing : Bool) (component_title template_lib_component s : Str) : Str :=
  if containsB (symbolCheck component_title) s = true then
    if skip_existing then s
    else reSubOnce component_title template_lib_component s
  else
    insertComponent template_lib_component s

/-- Characters of a record name on which Python's `re` engine treats the
interpolated pattern `rf'  \(symbol "{name}" ...'` as a literal: the
regex metacharacters (including the quantifier braces, conservatively)
are excluded.  `update_library` interpolates the record name into the
pattern without escaping, so the embedding is exact on such names. -/
def pyRegexLiteral (n : Str) : Bool :=
  n.all (fun c =>
    !(c ∈ [Char.ofNat 92, '.', '(', ')', '[', ']', '*', '+', '?', '|', '^', '$',
           Char.ofNat 123, Char.ofNat 125]))

/-- The title sanitisation chain of `create_symbol`: the successive
`str.replace` calls applied to `data["result"]["title"]`, in source
order (space and period to `_`, then the bracketed escape tokens). -/
def sanitize (title : Str) : Str :=
  replaceChar (Char.ofNat 34) (S "{dblquote}")
    (replaceChar ':' (S "{colon}")
      (replaceChar '>' (S "{gt}")
        (replaceChar '<' (S "{lt}")
          (replaceChar (Char.ofNat 92) (S "{backslash}")
            (replaceChar '/' (S "{slash}")
              (replaceChar '.' (S "_")
                (replaceChar ' ' (S "_") title)))))))

/-- The per-character replacement table realised by the sanitisation
chain (the replacement tokens contain none of the characters replaced
by later links of the chain, so the chain acts position-wise). -/
def escChar (c : Char) : Str :=
  if c = ' ' then S "_"
  else if c = '.' then S "_"
  else if c = '/' then S "{slash}"
  else if c = Char.ofNat 92 then S "{backslash}"
  else if c = '<' then S "{lt}"
  else if c = '>' then S "{gt}"
  else if c = ':' then S "{colon}"
  else if c = Char.ofNat 34 then S "{dblquote}"
  else [c]

/-- Python's `"\n".join`. -/
def joinNL : List Str → Str
  | [] => []
  | [x] => x
  | x :: y :: t => x ++ S "\n" ++ joinNL (y :: t)

/-- Decimal rendering of the numeric identifier interpolated by the
f-string `(id {start_index + index})`. -/
def natStr (n : Nat) : Str := (Nat.repr n).data

/-- One rendered property fragment of `get_type_values_properties`
(the f-string of its list comprehension). -/
def prop_fragment (k v : Str) (i : Nat) : Str :=
  S "(property \"" ++ k ++ S "\" \"" ++ v ++ S "\" (id " ++ natStr i
    ++ S ") (at 0 0 0)\n      (effects (font (size 1.27 1.27)) hide)\n    )"

/-- `get_type_values_properties` from the source: one fragment per
(key, value) pair of `component_types_values`, identifier
`start_index + index` with `index` from `enumerate`, all fragments
joined with `"\n"`. -/
def get_type_values_properties (start_index : Nat)
    (component_types_values : List (Str × Str)) : Str :=
  joinNL ((component_types_values.enum).map
    (fun itv => prop_fragment itv.2.1 itv.2.2 (start_index + itv.1)))

/-- The fragment list in recursive form. -/
def gtvpFragments (start : Nat) : List (Str × Str) → List Str
  | [] => []
  | (k, v) :: rest => prop_fragment k v start :: gtvpFragments (start + 1) rest

/-- The data `create_symbol` reads from one successful network response
for a sub-part (the network client is an external collaborator): the
raw display title, the raw reference-prefix token `c_para["pre"]`, the
`c_para` mapping in which the recognized physical-quantity attributes
are looked up, and the drawing text that the shape-handler registry
emits for the sub-part's shape (the handlers — including their
skip-with-warning of unrecognized type tags — are an external
collaborator writing into the accumulating buffer). -/
structure SubPart where
  title : Str
  preRaw : Str
  cpara : List (Str × Str)
  drawingBody : Str
deriving DecidableEq

/-- The enrichment mapping `props` produced by `load_jlcparts_metadata`
when the component is found in the database (every schema key present;
`value` may be empty).  `none` stands both for an absent database file
and for a component missing from it, which leave `props` empty. -/
structure Enrich where
  value : Str
  datasheet : Str
  description : Str
  manufacturer : Str
  mfr : Str
deriving DecidableEq

/-- `supported_value_types` from the source. -/
def supported_value_types : List Str :=
  [S "Resistance", S "Capacitance", S "Inductance", S "Frequency"]

/-- Assoc-list lookup modelling `key in dict` plus `dict[key]`. -/
def lookupKey (k : Str) : List (Str × Str) → Option Str
  | [] => none
  | (k2, v) :: rest => if k2 = k then some v else lookupKey k rest

/-- `component_types_values` as collected from `c_para`: the supported
value types present, in the fixed `supported_value_types` order. -/
def ctvOf (cpara : List (Str × Str)) : List (Str × Str) :=
  supported_value_types.filterMap (fun vt => (lookupKey vt cpara).map (fun v => (vt, v)))

/-- Loop-carried state of `create_symbol`'s per-sub-part loop:
`ComponentName`, the accumulated drawing buffer, and the
last-iteration values of `symmbol_prefix`, `value`, `datasheet_link`
and `component_types_values` that the record template reads after the
loop. -/
structure SymState where
  componentName : Str
  drawing : Str
  symmbolPre : Str
  value : Str
  datasheet : Str
  typesValues : List (Str × Str)
deriving DecidableEq

/-- One iteration of the `for component_uuid in symbol_component_uuid`
loop for a successful fetch, following the source's statement order:
the prefix token, the sanitized title and `component_types_values` are
computed (and stored) before the first-sub-part test; when the
component has two or more sub-parts and the current uuid equals the
first uuid, the iteration stops there (`continue`), so enrichment, the
value/datasheet overrides and the drawing emission do not run for it. -/
def loopIter (alluuids : List Str) (db : Option Enrich) (uuid : Str) (d : SubPart)
    (st : SymState) : SymState :=
  let symmbolPre := replaceChar '?' [] d.preRaw
  let ctv := ctvOf d.cpara
  let firstPass := st.componentName.isEmpty
  let componentName := if firstPass then sanitize d.title else st.componentName
  let component_title := if firstPass then sanitize d.title ++ S "_0" else sanitize d.title
  if 2 ≤ alluuids.length ∧ alluuids.head? = some uuid then
    { st with componentName := componentName, symmbolPre := symmbolPre, typesValues := ctv }
  else
    let pv := match db with | some e => e.value | none => []
    let value := if pv.isEmpty then componentName else pv
    let datasheet := match db with | some e => e.datasheet | none => st.datasheet
    let typesValues := ctv ++
      [(S "JLCDescription", match db with | some e => e.description | none => []),
       (S "Manufacturer", match db with | some e => e.manufacturer | none => []),
       (S "MFR.Part.#", match db with | some e => e.mfr | none => [])]
    let drawing := st.drawing ++ S "\n    (symbol \"" ++ component_title ++ S "_1\""
      ++ d.drawingBody ++ S "\n    )"
    { componentName := componentName, drawing := drawing, symmbolPre := symmbolPre,
      value := value, datasheet := datasheet, typesValues := typesValues }

/-- The loop of `create_symbol` over (uuid, fetch result) pairs: a
failed fetch (non-success status code) aborts immediately with no
record — the source's `return ()`, reached before any file I/O. -/
def runLoop (alluuids : List Str) (db : Option Enrich) :
    List (Str × Option SubPart) → SymState → Option SymState
  | [], st => some st
  | (_, none) :: _, _ => none
  | (u, some d) :: rest, st => runLoop alluuids db rest (loopIter alluuids db u d st)

/-- State before the first iteration: `ComponentName = ""`, empty
drawing buffer, the caller's `datasheet_link`; the remaining fields are
unassigned in the source until the first iteration and start empty. -/
def initState (datasheet_link : Str) : SymState :=
  { componentName := [], drawing := [], symmbolPre := [], value := [],
    datasheet := datasheet_link, typesValues := [] }

/-- `template_lib_component` from the source: the record text, with the
class defaults `(pin_names hide)` / `(pin_numbers hide)` rendered (the
shape-handler collaborator is modelled as leaving them untouched). -/
def render_record (componentName symmbolPre value footprint_name datasheet_link component_id : Str)
    (component_types_values : List (Str × Str)) (drawing : Str) : Str :=
  S "  (symbol \"" ++ componentName
    ++ S "\" (pin_names hide) (pin_numbers hide) (in_bom yes) (on_board yes)\n    (property \"Reference\" \""
    ++ symmbolPre
    ++ S "\" (id 0) (at 0 1.27 0)\n      (effects (font (size 1.27 1.27)))\n    )\n    (property \"Value\" \""
    ++ value
    ++ S "\" (id 1) (at 0 -2.54 0)\n      (effects (font (size 1.27 1.27)))\n    )\n    (property \"Footprint\" \""
    ++ footprint_name
    ++ S "\" (id 2) (at 0 -10.16 0)\n      (effects (font (size 1.27 1.27) italic) hide)\n    )\n    (property \"Datasheet\" \""
    ++ datasheet_link
    ++ S "\" (id 3) (at -2.286 0.127 0)\n      (effects (font (size 1.27 1.27)) (justify left) hide)\n    )\n    (property \"ki_keywords\" \""
    ++ component_id
    ++ S "\" (id 4) (at 0 0 0)\n      (effects (font (size 1.27 1.27)) hide)\n    )\n    (property \"LCSC\" \""
    ++ component_id
    ++ S "\" (id 5) (at 0 0 0)\n      (effects (font (size 1.27 1.27)) hide)\n    )\n    "
    ++ get_type_values_properties 6 component_types_values
    ++ drawing
    ++ S "\n  )\n"

/-- `create_symbol` as a function of the fetched sub-part data and the
target container's current content: runs the per-sub-part loop; on any
fetch failure returns the container unchanged and no record; otherwise
renders `template_lib_component` and merges it with `update_library`.
(When the target file does not exist the source first writes the fresh
container `header ++ footer`; pass that content for this case.) -/
def create_symbol (parts : List (Str × Option SubPart))
    (footprint_name datasheet_link component_id : Str) (db : Option Enrich)
    (skip_existing : Bool) (container : Str) : Str × Option Str :=
  match runLoop (parts.map Prod.fst) db parts (initState datasheet_link) with
  | none => (container, none)
  | some st =>
    let record := render_record st.componentName st.symmbolPre st.value footprint_name
      st.datasheet component_id st.typesValues st.drawing
    (update_library skip_existing st.componentName record container, some record)

/-! ### Toolbox lemmas about the text machinery -/

theorem isPre_iff (p s : Str) : isPre p s = true ↔ ∃ t, s = p ++ t := by
  induction p generalizing s with
  | nil => simpa [isPre] using ⟨s, rfl⟩
  | cons a p ih =>
    cases s with
    | nil => simp [isPre]
    | cons b s =>
      simp only [isPre, Bool.and_eq_true, decide_eq_true_eq, List.cons_append,
        List.cons.injEq, ih]
      constructor
      · rintro ⟨rfl, t, rfl⟩; exact ⟨t, rfl, rfl⟩
      · rintro ⟨t, rfl, rfl⟩; exact ⟨rfl, t, rfl⟩

theorem isPre_self_append (p t : Str) : isPre p (p ++ t) = true :=
  (isPre_iff p (p ++ t)).mpr ⟨t, rfl⟩

theorem take_cat (a b : Str) (n : Nat) (h : n = a.length) : (a ++ b).take n = a := by
  subst h
  induction a with
  | nil => rfl
  | cons x xs ih => simpa [List.length_cons, List.take_succ_cons] using ih

theorem drop_cat (a b : Str) (n : Nat) (h : n = a.length) : (a ++ b).drop n = b := by
  subst h
  induction a with
  | nil => rfl
  | cons x xs ih => simpa [List.length_cons, List.drop_succ_cons] using ih

theorem drop_all (l : Str) (n : Nat) (h : l.length ≤ n) : l.drop n = [] := by
  induction l generalizing n with
  | nil => simp
  | cons x xs ih =>
    cases n with
    | zero => simp at h
    | succ m =>
      rw [List.drop_succ_cons]
      exact ih m (by simpa [List.length_cons, Nat.succ_le_succ_iff] using h)

theorem findSub_isSome_of_occurs (pat : Str) :
    ∀ (s : Str) (i : Nat), Occurs pat s i → (findSub pat s).isSome = true := by
  intro s
  induction s with
  | nil =>
    intro i h
    simp only [Occurs, List.drop_nil] at h
    simp [findSub, h]
  | cons a t ih =>
    intro i h
    cases i with
    | zero =>
      simp only [Occurs, List.drop_zero] at h
      simp [findSub, h]
    | succ j =>
      have hj : Occurs pat t j := by
        simpa only [Occurs, List.drop_succ_cons] using h
      by_cases hp : isPre pat (a :: t) = true
      · simp [findSub, hp]
      · simp [findSub, hp, Option.isSome_map, ih j hj]

theorem containsB_of_occurs {pat s : Str} {i : Nat} (h : Occurs pat s i) :
    containsB pat s = true := by
  unfold containsB
  exact findSub_isSome_of_occurs pat s i h

theorem findSub_eq_of_first (pat : Str) :
    ∀ (i : Nat) (s : Str), Occurs pat s i → (∀ j, j < i → ¬ Occurs pat s j) →
    findSub pat s = some i := by
  intro i
  induction i with
  | zero =>
    intro s h _
    simp only [Occurs, List.drop_zero] at h
    cases s with
    | nil => simp [findSub, h]
    | cons a t => simp [findSub, h]
  | succ j ih =>
    intro s h hmin
    have h0 : ¬ Occurs pat s 0 := hmin 0 (Nat.succ_pos j)
    cases s with
    | nil =>
      exfalso
      apply h0
      simpa only [Occurs, List.drop_nil] using h
    | cons a t =>
      have hp : ¬ isPre pat (a :: t) = true := by
        simpa only [Occurs, List.drop_zero] using h0
      have ht : Occurs pat t j := by
        simpa only [Occurs, List.drop_succ_cons] using h
      have htmin : ∀ k, k < j → ¬ Occurs pat t k := by
        intro k hk hO
        exact hmin (k + 1) (Nat.succ_lt_succ hk)
          (by simpa only [Occurs, List.drop_succ_cons] using hO)
      simp [findSub, hp, ih t ht htmin]

theorem rfind_none (c : Char) (s : Str) (h : c ∉ s) : rfindChar c s = none := by
  induction s with
  | nil => rfl
  | cons a t ih =>
    have h1 : c ∉ t := fun hm => h (List.mem_cons_of_mem _ hm)
    have h2 : ¬ a = c := fun e => h (e ▸ List.mem_cons_self a t)
    simp [rfindChar, ih h1, h2]

theorem rfind_last (c : Char) (p t : Str) (h : c ∉ t) :
    rfindChar c (p ++ (c :: t)) = some p.length := by
  induction p with
  | nil => simp [rfindChar, rfind_none c t h]
  | cons a p ih => simp [rfindChar, ih]

theorem openerDecomp (name : Str) :
    symbolOpener name = S "  (" ++ (symbolCheck name ++ S " ") := by
  unfold symbolOpener symbolCheck
  have h1 : S "  (symbol \"" = S "  (" ++ S "symbol \"" := rfl
  have h2 : S "\" " = S "\"" ++ S " " := rfl
  rw [h1, h2]
  simp [List.append_assoc]

theorem length_S_paren : (S "  (").length = 3 := rfl

theorem length_symbolTerm : symbolTerm.length = 4 := rfl

/-- Core of the replace branch of `update_library`: in a container
`P ++ opener ++ body ++ terminator ++ tail` in which the opener of the
given record first occurs at the start of that record and the line
terminator `"\n  )"` first occurs (from the opener on) at that record's
own terminator, the merge with `skip_existing = false` replaces exactly
the span from the opening token through the terminator with the new
record text and leaves `P` and `tail` byte-identical. -/
theorem update_library_replace_splice (name body P tail R : Str)
    (h1 : ∀ j, j < P.length →
      ¬ Occurs (symbolOpener name) (P ++ (symbolOpener name ++ (body ++ (symbolTerm ++ tail)))) j)
    (h2 : ∀ k, k < body.length → ¬ Occurs symbolTerm (body ++ (symbolTerm ++ tail)) k) :
    update_library false name R (P ++ (symbolOpener name ++ (body ++ (symbolTerm ++ tail))))
      = P ++ R ++ tail := by
  set c := P ++ (symbolOpener name ++ (body ++ (symbolTerm ++ tail))) with hc
  have hgroup : c = (P ++ S "  (") ++ (symbolCheck name ++ (S " " ++ (body ++ (symbolTerm ++ tail)))) := by
    rw [hc, openerDecomp]
    simp [List.append_assoc]
  have hocc : Occurs (symbolCheck name) c (P.length + 3) := by
    unfold Occurs
    rw [hgroup, drop_cat _ _ _ (by simp [List.length_append, length_S_paren])]
    exact isPre_self_append _ _
  have hcont : containsB (symbolCheck name) c = true := containsB_of_occurs hocc
  have hfind1 : findSub (symbolOpener name) c = some P.length := by
    apply findSub_eq_of_first
    · unfold Occurs
      rw [hc, drop_cat _ _ _ rfl]
      exact isPre_self_append _ _
    · exact h1
  have hdropMid : c.drop (P.length + (symbolOpener name).length) = body ++ (symbolTerm ++ tail) := by
    rw [hc, show P ++ (symbolOpener name ++ (body ++ (symbolTerm ++ tail)))
        = (P ++ symbolOpener name) ++ (body ++ (symbolTerm ++ tail)) from by
      simp [List.append_assoc]]
    exact drop_cat _ _ _ (by simp [List.length_append])
  have hfind2 : findSub symbolTerm (c.drop (P.length + (symbolOpener name).length))
      = some body.length := by
    rw [hdropMid]
    apply findSub_eq_of_first
    · unfold Occurs
      rw [drop_cat _ _ _ rfl]
      exact isPre_self_append _ _
    · exact h2
  have htake : c.take P.length = P := by
    rw [hc]; exact take_cat _ _ _ rfl
  have hdropEnd : c.drop (P.length + (symbolOpener name).length + body.length + symbolTerm.length)
      = tail := by
    rw [hc, show P ++ (symbolOpener name ++ (body ++ (symbolTerm ++ tail)))
        = (P ++ symbolOpener name ++ body ++ symbolTerm) ++ tail from by
      simp [List.append_assoc]]
    exact drop_cat _ _ _ (by simp only [List.length_append])
  unfold update_library
  rw [hcont]
  simp only [if_true, Bool.false_eq_true, if_false]
  unfold reSubOnce
  rw [hfind1]
  simp only []
  rw [hfind2]
  simp only []
  rw [htake, hdropEnd]

/-- Core of the insertion branch of `update_library`: when
`symbol "{name}"` does not occur in the container `P ++ ")\n"`, the
merge (with either skip flag) yields `P ++ R ++ ")\n"`: the new record
text is spliced in immediately before the trailing sentinel and the
sentinel is re-appended. -/
theorem update_library_insert (name P R : Str) (skip : Bool)
    (h : containsB (symbolCheck name) (P ++ template_lib_footer) = false) :
    update_library skip name R (P ++ template_lib_footer)
      = P ++ R ++ template_lib_footer := by
  unfold update_library
  rw [h]
  simp only [Bool.false_eq_true, if_false]
  unfold insertComponent writeAt0
  have hfoot : template_lib_footer = ')' :: ('\n' :: []) := rfl
  have hr : rfindChar ')' (P ++ template_lib_footer) = some P.length := by
    rw [hfoot]
    exact rfind_last ')' P ('\n' :: []) (by decide)
  rw [hr]
  simp only []
  rw [take_cat P template_lib_footer P.length rfl]
  have hlen : (P ++ template_lib_footer).length ≤ (P ++ R ++ template_lib_footer).length := by
    simp only [List.length_append]; omega
  rw [drop_all _ _ hlen, List.append_nil]

/-- C3: when `symbol "{name}"` already occurs in the container and
`skip_existing = true`, `update_library` performs no mutation: the
content is returned byte-identical (the function returns before any
write). -/
theorem skip_existing_no_mutation (name R s : Str)
    (h : containsB (symbolCheck name) s = true) :
    update_library true name R s = s := by
  unfold update_library
  rw [h]
  simp

theorem skip_existing_no_mutation_witness :
    containsB (symbolCheck (S "A"))
        (template_lib_header ++ S "  (symbol \"A\" z\n  )\n" ++ template_lib_footer) = true
    ∧ update_library true (S "A") (S "NEWTEXT")
        (template_lib_header ++ S "  (symbol \"A\" z\n  )\n" ++ template_lib_footer)
      = template_lib_header ++ S "  (symbol \"A\" z\n  )\n" ++ template_lib_footer :=
  ⟨by decide,
   skip_existing_no_mutation (S "A") (S "NEWTEXT")
     (template_lib_header ++ S "  (symbol \"A\" z\n  )\n" ++ template_lib_footer)
     (by decide)⟩

/-- C4: merging a record text `R` under a fresh name into a well-formed
container `H ++ recs ++ ")\n"` (header, existing records, trailing
sentinel, no record of the given name) inserts `R` immediately before
the trailing sentinel: the result is exactly `H ++ recs ++ R ++ ")\n"`,
with the header, the existing records and the sentinel preserved
verbatim. -/
theorem new_record_insertion (H recs R name : Str) (skip : Bool)
    (h : containsB (symbolCheck name) (H ++ recs ++ template_lib_footer) = false) :
    update_library skip name R (H ++ recs ++ template_lib_footer)
      = H ++ recs ++ R ++ template_lib_footer := by
  have key := update_library_insert name (H ++ recs) R skip
    (by simpa [List.append_assoc] using h)
  simpa [List.append_assoc] using key

theorem new_record_insertion_witness :
    containsB (symbolCheck (S "A"))
        (template_lib_header ++ S "  (symbol \"B\" w\n  )\n" ++ template_lib_footer) = false
    ∧ update_library false (S "A") (S "  (symbol \"A\" z\n  )\n")
        (template_lib_header ++ S "  (symbol \"B\" w\n  )\n" ++ template_lib_footer)
      = template_lib_header ++ S "  (symbol \"B\" w\n  )\n"
          ++ S "  (symbol \"A\" z\n  )\n" ++ template_lib_footer :=
  ⟨by decide,
   new_record_insertion template_lib_header (S "  (symbol \"B\" w\n  )\n")
     (S "  (symbol \"A\" z\n  )\n") (S "A") false (by decide)⟩

/-- C2: isolation and exact-span replacement.  First conjunct (replace
branch): in a container `P ++ opener ++ body ++ "\n  )" ++ tail` whose
record opening first occurs at the record's start and whose terminator
line first occurs at that record's own terminator, merging a new text
for that record with `skip_existing = false` replaces exactly the span
from the opening token through the terminator, leaving `P` and `tail`
(hence the byte content of every other record, which lives inside `P`
or `tail`) byte-identical.  Second conjunct (insert branch): inserting
a fresh record rewrites the container as `P ++ R ++ ")\n"`, leaving all
records inside `P` byte-identical.  The literal-pattern hypotheses
confine the statement to inputs on which the embedding of Python's
`re.sub` is exact. -/
theorem merge_record_isolation :
    (∀ name body P tail R, pyRegexLiteral name = true → Char.ofNat 92 ∉ R →
      (∀ j, j < P.length →
        ¬ Occurs (symbolOpener name)
          (P ++ (symbolOpener name ++ (body ++ (symbolTerm ++ tail)))) j) →
      (∀ k, k < body.length → ¬ Occurs symbolTerm (body ++ (symbolTerm ++ tail)) k) →
      update_library false name R (P ++ (symbolOpener name ++ (body ++ (symbolTerm ++ tail))))
        = P ++ R ++ tail)
    ∧ (∀ name P R skip, containsB (symbolCheck name) (P ++ template_lib_footer) = false →
      update_library skip name R (P ++ template_lib_footer)
        = P ++ R ++ template_lib_footer) := by
  constructor
  · intro name body P tail R _ _ h1 h2
    exact update_library_replace_splice name body P tail R h1 h2
  · intro name P R skip h
    exact update_library_insert name P R skip h

theorem merge_record_isolation_witness :
    update_library false (S "A") (S "NEWRECA")
        (template_lib_header
          ++ (symbolOpener (S "A") ++ (S "z" ++ (symbolTerm ++ S "\n  (symbol \"B\" w\n  )\n)\n"))))
      = template_lib_header ++ S "NEWRECA" ++ S "\n  (symbol \"B\" w\n  )\n)\n" :=
  merge_record_isolation.1 (S "A") (S "z") template_lib_header
    (S "\n  (symbol \"B\" w\n  )\n)\n") (S "NEWRECA")
    (by decide) (by decide) (by decide) (by decide)

/-- C1 counterexample: merging the rendered record
`  (symbol "A" z\n  )\n` into the empty container twice with
`skip_existing = false` does not converge: the regex match of the
replace branch stops at the terminator `\n  )` and does not consume the
record's trailing newline, while the replacement text carries its own,
so the second merge differs from the first by one extra newline. -/
theorem merge_twice_not_idempotent :
    update_library false (S "A") (S "  (symbol \"A\" z\n  )\n")
        (update_library false (S "A") (S "  (symbol \"A\" z\n  )\n")
          (template_lib_header ++ template_lib_footer))
      ≠ update_library false (S "A") (S "  (symbol \"A\" z\n  )\n")
          (template_lib_header ++ template_lib_footer) := by
  decide

/-- C1 (amended): for a container `P ++ R ++ T` that already holds the
rendered record `R = opener ++ body ++ "\n  )\n"` (the state reached
after the first merge), merging the same `R` again with
`skip_existing = false` yields the previous content with exactly one
extra newline inserted immediately after the record's terminator:
`P ++ R ++ "\n" ++ T`.  Each further merge adds one more newline, so
the replace branch never duplicates the record but also never
converges byte-identically. -/
theorem merge_again_adds_newline (name body P T : Str)
    (hname : pyRegexLiteral name = true)
    (hR : Char.ofNat 92 ∉ symbolOpener name ++ (body ++ (symbolTerm ++ S "\n")))
    (h1 : ∀ j, j < P.length →
      ¬ Occurs (symbolOpener name)
        (P ++ (symbolOpener name ++ (body ++ (symbolTerm ++ (S "\n" ++ T))))) j)
    (h2 : ∀ k, k < body.length →
      ¬ Occurs symbolTerm (body ++ (symbolTerm ++ (S "\n" ++ T))) k) :
    update_library false name (symbolOpener name ++ (body ++ (symbolTerm ++ S "\n")))
        (P ++ ((symbolOpener name ++ (body ++ (symbolTerm ++ S "\n"))) ++ T))
      = P ++ ((symbolOpener name ++ (body ++ (symbolTerm ++ S "\n"))) ++ (S "\n" ++ T)) := by
  have key := update_library_replace_splice name body P (S "\n" ++ T)
    (symbolOpener name ++ (body ++ (symbolTerm ++ S "\n"))) h1 h2
  rw [show P ++ ((symbolOpener name ++ (body ++ (symbolTerm ++ S "\n"))) ++ T)
      = P ++ (symbolOpener name ++ (body ++ (symbolTerm ++ (S "\n" ++ T)))) from by
    simp [List.append_assoc]]
  rw [key]
  simp [List.append_assoc]

theorem merge_again_adds_newline_witness :
    update_library false (S "A")
        (symbolOpener (S "A") ++ (S "z" ++ (symbolTerm ++ S "\n")))
        (template_lib_header
          ++ ((symbolOpener (S "A") ++ (S "z" ++ (symbolTerm ++ S "\n"))) ++ template_lib_footer))
      = template_lib_header
          ++ ((symbolOpener (S "A") ++ (S "z" ++ (symbolTerm ++ S "\n")))
            ++ (S "\n" ++ template_lib_footer)) :=
  merge_again_adds_newline (S "A") (S "z") template_lib_header template_lib_footer
    (by decide) (by decide) (by decide) (by decide)

theorem replaceChar_append (c : Char) (r x y : Str) :
    replaceChar c r (x ++ y) = replaceChar c r x ++ replaceChar c r y := by
  induction x with
  | nil => rfl
  | cons a t ih => simp [replaceChar, ih, List.append_assoc]

theorem sanitize_append (x y : Str) :
    sanitize (x ++ y) = sanitize x ++ sanitize y := by
  simp [sanitize, replaceChar_append]

theorem sanitize_single (c : Char) : sanitize [c] = escChar c := by
  by_cases h1 : c = ' '
  · subst h1; decide
  by_cases h2 : c = '.'
  · subst h2; decide
  by_cases h3 : c = '/'
  · subst h3; decide
  by_cases h4 : c = Char.ofNat 92
  · subst h4; decide
  by_cases h5 : c = '<'
  · subst h5; decide
  by_cases h6 : c = '>'
  · subst h6; decide
  by_cases h7 : c = ':'
  · subst h7; decide
  by_cases h8 : c = Char.ofNat 34
  · subst h8; decide
  simp [sanitize, escChar, replaceChar, h1, h2, h3, h4, h5, h6, h7, h8]

/-- C7 counterexample: a title containing a space (or a period)
sanitizes to an underscore, not to a bracketed escape token: no brace
appears in the output at all. -/
theorem sanitize_space_not_bracketed :
    sanitize (S "a b") = S "a_b" ∧ Char.ofNat 123 ∉ sanitize (S "a b")
      ∧ sanitize (S "a.b") = S "a_b" := by
  decide

/-- C7 (amended): the sanitized title replaces, position-wise, space
and period with `_`, slash / backslash / angle brackets / colon /
double-quote with the bracketed tokens of `escChar`, and leaves every
other character unchanged. -/
theorem sanitize_characterization (t : Str) : sanitize t = t.flatMap escChar := by
  induction t with
  | nil => rfl
  | cons c t ih =>
    have hc : c :: t = [c] ++ t := rfl
    rw [hc, sanitize_append, sanitize_single, ih]
    simp

theorem gtvp_enum_shift (l : List (Str × Str)) :
    ∀ (n start : Nat),
      ((List.enumFrom n l).map (fun itv => prop_fragment itv.2.1 itv.2.2 (start + itv.1)))
        = gtvpFragments (start + n) l := by
  induction l with
  | nil => intro n start; rfl
  | cons kv rest ih =>
    intro n start
    cases kv with
    | mk k v =>
      simp only [List.enumFrom, List.map, gtvpFragments]
      rw [ih (n + 1) start]
      rw [show start + (n + 1) = start + n + 1 from by omega]

theorem gtvp_eq_fragments (start : Nat) (tvs : List (Str × Str)) :
    get_type_values_properties start tvs = joinNL (gtvpFragments start tvs) := by
  unfold get_type_values_properties
  rw [List.enum, gtvp_enum_shift tvs 0 start, Nat.add_zero]

/-- C8: the Property Block Synthesizer emits exactly one property-text
fragment per (key, value) pair, with identifiers assigned sequentially
`start, start+1, ...` in input order (first conjunct, as a recurrence);
a pair with an empty value is emitted as a full fragment carrying the
empty string, not omitted (second conjunct), and such a fragment is
never the empty text (third conjunct). -/
theorem property_block_synthesis :
    (∀ (start : Nat) (k v : Str) (rest : List (Str × Str)),
      get_type_values_properties start ((k, v) :: rest)
        = prop_fragment k v start
          ++ (if rest.isEmpty then [] else S "\n" ++ get_type_values_properties (start + 1) rest))
    ∧ (∀ (start : Nat) (k : Str) (rest : List (Str × Str)),
      get_type_values_properties start ((k, S "") :: rest)
        = prop_fragment k (S "") start
          ++ (if rest.isEmpty then [] else S "\n" ++ get_type_values_properties (start + 1) rest))
    ∧ (∀ (start : Nat) (k : Str), prop_fragment k (S "") start ≠ []) := by
  have main : ∀ (start : Nat) (k v : Str) (rest : List (Str × Str)),
      get_type_values_properties start ((k, v) :: rest)
        = prop_fragment k v start
          ++ (if rest.isEmpty then []
              else S "\n" ++ get_type_values_properties (start + 1) rest) := by
    intro start k v rest
    rw [gtvp_eq_fragments, gtvp_eq_fragments]
    cases rest with
    | nil => simp [gtvpFragments, joinNL]
    | cons r rs =>
      cases r with
      | mk k2 v2 =>
        simp only [gtvpFragments, joinNL, List.isEmpty_cons, if_false, Bool.false_eq_true]
        simp [List.append_assoc]
  refine ⟨main, fun start k rest => main start k (S "") rest, ?_⟩
  intro start k h
  have hlen := congrArg List.length h
  simp only [prop_fragment, List.length_append, List.length_nil] at hlen
  have hl : (S "(property \"").length = 11 := rfl
  omega

/-- C9: when any sub-part's fetch returns a non-success status,
`create_symbol` aborts the whole component and returns an empty result,
and the container content is untouched — all file I/O in the source
comes after the fetch loop, so the record is (or would be) constructed
fully in memory before any file operation. -/
theorem fetch_failure_aborts (parts : List (Str × Option SubPart))
    (fp ds cid : Str) (db : Option Enrich) (skip : Bool) (container : Str) (u : Str)
    (h : (u, (none : Option SubPart)) ∈ parts) :
    create_symbol parts fp ds cid db skip container = (container, none) := by
  have hrun : ∀ (l : List (Str × Option SubPart)) (alluuids : List Str) (st : SymState),
      (u, (none : Option SubPart)) ∈ l → runLoop alluuids db l st = none := by
    intro l
    induction l with
    | nil => intro _ _ hmem; cases hmem
    | cons p rest ih =>
      intro alluuids st hmem
      cases p with
      | mk v op =>
        cases op with
        | none => rfl
        | some d =>
          rcases List.mem_cons.mp hmem with heq | hmem2
          · exact absurd (congrArg Prod.snd heq) (by simp)
          · exact ih alluuids (loopIter alluuids db v d st) hmem2
  unfold create_symbol
  rw [hrun parts (parts.map Prod.fst) (initState ds) h]

theorem fetch_failure_aborts_witness :
    create_symbol
        [(S "u1", some ⟨S "T1", S "R", [], S "DRAWONE"⟩), (S "u2", none)]
        (S "F1") (S "D") (S "C100001") none false
        (template_lib_header ++ template_lib_footer)
      = (template_lib_header ++ template_lib_footer, none) :=
  fetch_failure_aborts
    [(S "u1", some ⟨S "T1", S "R", [], S "DRAWONE"⟩), (S "u2", none)]
    (S "F1") (S "D") (S "C100001") none false
    (template_lib_header ++ template_lib_footer) (S "u2") (by decide)

/-- C6 is refuted by the code: with two sub-parts, the loop `continue`s
on the first uuid after it has contributed only the component name, so
the first sub-part's drawing fragment (`DRAWONE` here) never reaches
the aggregate drawing body; only the second sub-part's fragment does.
The spec's step "append the rendered drawing fragment for this
sub-part" (for every sub-part in list order) is the stated intent, so
this is recorded as a code bug. -/
theorem first_subpart_drawing_skipped :
    (runLoop [S "u1", S "u2"] none
        [(S "u1", some ⟨S "T1", S "R", [], S "DRAWONE"⟩),
         (S "u2", some ⟨S "T2", S "R", [], S "DRAWTWO"⟩)]
        (initState (S "D"))).map (fun st => st.drawing)
      = some (S "\n    (symbol \"T2_1\"DRAWTWO\n    )")
    ∧ (runLoop [S "u1", S "u2"] none
        [(S "u1", some ⟨S "T1", S "R", [], S "DRAWONE"⟩),
         (S "u2", some ⟨S "T2", S "R", [], S "DRAWTWO"⟩)]
        (initState (S "D"))).map (fun st => containsB (S "DRAWONE") st.drawing)
      = some false := by
  decide

theorem escChar_ne_nil (c : Char) : escChar c ≠ [] := by
  unfold escChar
  split_ifs <;> first | decide | simp

theorem sanitize_ne_nil (t : Str) (h : t ≠ []) : sanitize t ≠ [] := by
  cases t with
  | nil => exact absurd rfl h
  | cons c t =>
    rw [sanitize_characterization]
    intro hnil
    rw [List.flatMap_cons] at hnil
    rcases List.append_eq_nil.mp hnil with ⟨h1, _⟩
    exact escChar_ne_nil c h1

/-- Evaluation of the loop for a component with a single sub-part: the
first-sub-part skip test is off (`len < 2`), the canonical name is the
sanitized title, the value falls back to it when the enrichment value
is empty, and the drawing fragment is labelled `{title}_0_1`. -/
theorem runLoop_single (u t preR dbody ds : Str) (cpara : List (Str × Str))
    (db : Option Enrich) :
    runLoop [u] db [(u, some ⟨t, preR, cpara, dbody⟩)] (initState ds)
      = some { componentName := sanitize t,
               drawing := S "\n    (symbol \"" ++ (sanitize t ++ S "_0") ++ S "_1\""
                 ++ dbody ++ S "\n    )",
               symmbolPre := replaceChar '?' [] preR,
               value := if (match db with | some e => e.value | none => ([] : Str)).isEmpty
                 then sanitize t else (match db with | some e => e.value | none => ([] : Str)),
               datasheet := (match db with | some e => e.datasheet | none => ds),
               typesValues := ctvOf cpara ++
                 [(S "JLCDescription", match db with | some e => e.description | none => []),
                  (S "Manufacturer", match db with | some e => e.manufacturer | none => []),
                  (S "MFR.Part.#", match db with | some e => e.mfr | none => [])] } := by
  cases db <;> rfl

/-- `runLoop_single` specialised to an absent enrichment mapping. -/
theorem runLoop_single_none (u t preR dbody ds : Str) (cpara : List (Str × Str)) :
    runLoop [u] none [(u, some ⟨t, preR, cpara, dbody⟩)] (initState ds)
      = some { componentName := sanitize t,
               drawing := S "\n    (symbol \"" ++ (sanitize t ++ S "_0") ++ S "_1\""
                 ++ dbody ++ S "\n    )",
               symmbolPre := replaceChar '?' [] preR,
               value := sanitize t,
               datasheet := ds,
               typesValues := ctvOf cpara ++
                 [(S "JLCDescription", []), (S "Manufacturer", []), (S "MFR.Part.#", [])] } :=
  rfl

/-- `runLoop_single` specialised to an enrichment mapping whose value
field is empty. -/
theorem runLoop_single_emptyval (u t preR dbody ds : Str) (cpara : List (Str × Str))
    (e : Enrich) (he : e.value = []) :
    runLoop [u] (some e) [(u, some ⟨t, preR, cpara, dbody⟩)] (initState ds)
      = some { componentName := sanitize t,
               drawing := S "\n    (symbol \"" ++ (sanitize t ++ S "_0") ++ S "_1\""
                 ++ dbody ++ S "\n    )",
               symmbolPre := replaceChar '?' [] preR,
               value := sanitize t,
               datasheet := e.datasheet,
               typesValues := ctvOf cpara ++
                 [(S "JLCDescription", e.description), (S "Manufacturer", e.manufacturer),
                  (S "MFR.Part.#", e.mfr)] } := by
  rw [runLoop_single u t preR dbody ds cpara (some e)]
  simp [he]

theorem render_record_value_decomp (n pre v fp dsv cid : Str)
    (tvs : List (Str × Str)) (dr : Str) :
    ∃ a b, render_record n pre v fp dsv cid tvs dr
      = a ++ (S "(property \"Value\" \"" ++ v ++ S "\"") ++ b := by
  refine ⟨S "  (symbol \"" ++ n
      ++ S "\" (pin_names hide) (pin_numbers hide) (in_bom yes) (on_board yes)\n    (property \"Reference\" \""
      ++ pre ++ S "\" (id 0) (at 0 1.27 0)\n      (effects (font (size 1.27 1.27)))\n    )\n    ",
    S " (id 1) (at 0 -2.54 0)\n      (effects (font (size 1.27 1.27)))\n    )\n    (property \"Footprint\" \""
      ++ fp ++ S "\" (id 2) (at 0 -10.16 0)\n      (effects (font (size 1.27 1.27) italic) hide)\n    )\n    (property \"Datasheet\" \""
      ++ dsv ++ S "\" (id 3) (at -2.286 0.127 0)\n      (effects (font (size 1.27 1.27)) (justify left) hide)\n    )\n    (property \"ki_keywords\" \""
      ++ cid ++ S "\" (id 4) (at 0 0 0)\n      (effects (font (size 1.27 1.27)) hide)\n    )\n    (property \"LCSC\" \""
      ++ cid ++ S "\" (id 5) (at 0 0 0)\n      (effects (font (size 1.27 1.27)) hide)\n    )\n    "
      ++ get_type_values_properties 6 tvs ++ dr ++ S "\n  )\n", ?_⟩
  unfold render_record
  rw [show S "\" (id 0) (at 0 1.27 0)\n      (effects (font (size 1.27 1.27)))\n    )\n    (property \"Value\" \""
      = S "\" (id 0) (at 0 1.27 0)\n      (effects (font (size 1.27 1.27)))\n    )\n    "
        ++ S "(property \"Value\" \"" from rfl]
  rw [show S "\" (id 1) (at 0 -2.54 0)\n      (effects (font (size 1.27 1.27)))\n    )\n    (property \"Footprint\" \""
      = S "\"" ++ S " (id 1) (at 0 -2.54 0)\n      (effects (font (size 1.27 1.27)))\n    )\n    (property \"Footprint\" \""
      from rfl]
  simp [List.append_assoc]

theorem render_record_opener_decomp (n pre v fp dsv cid : Str)
    (tvs : List (Str × Str)) (dr : Str) :
    ∃ b, render_record n pre v fp dsv cid tvs dr
      = S "  (symbol \"" ++ n ++ S "\" " ++ b := by
  refine ⟨S "(pin_names hide) (pin_numbers hide) (in_bom yes) (on_board yes)\n    (property \"Reference\" \""
      ++ pre ++ S "\" (id 0) (at 0 1.27 0)\n      (effects (font (size 1.27 1.27)))\n    )\n    (property \"Value\" \""
      ++ v ++ S "\" (id 1) (at 0 -2.54 0)\n      (effects (font (size 1.27 1.27)))\n    )\n    (property \"Footprint\" \""
      ++ fp ++ S "\" (id 2) (at 0 -10.16 0)\n      (effects (font (size 1.27 1.27) italic) hide)\n    )\n    (property \"Datasheet\" \""
      ++ dsv ++ S "\" (id 3) (at -2.286 0.127 0)\n      (effects (font (size 1.27 1.27)) (justify left) hide)\n    )\n    (property \"ki_keywords\" \""
      ++ cid ++ S "\" (id 4) (at 0 0 0)\n      (effects (font (size 1.27 1.27)) hide)\n    )\n    (property \"LCSC\" \""
      ++ cid ++ S "\" (id 5) (at 0 0 0)\n      (effects (font (size 1.27 1.27)) hide)\n    )\n    "
      ++ get_type_values_properties 6 tvs ++ dr ++ S "\n  )\n", ?_⟩
  unfold render_record
  rw [show S "\" (pin_names hide) (pin_numbers hide) (in_bom yes) (on_board yes)\n    (property \"Reference\" \""
      = S "\" " ++ S "(pin_names hide) (pin_numbers hide) (in_bom yes) (on_board yes)\n    (property \"Reference\" \""
      from rfl]
  simp [List.append_assoc]

theorem render_record_lcsc_decomp (n pre v fp dsv cid : Str)
    (tvs : List (Str × Str)) (dr : Str) :
    ∃ a b, render_record n pre v fp dsv cid tvs dr
      = a ++ (S "(property \"LCSC\" \"" ++ cid ++ S "\" (id 5) (at 0 0 0)") ++ b := by
  refine ⟨S "  (symbol \"" ++ n
      ++ S "\" (pin_names hide) (pin_numbers hide) (in_bom yes) (on_board yes)\n    (property \"Reference\" \""
      ++ pre ++ S "\" (id 0) (at 0 1.27 0)\n      (effects (font (size 1.27 1.27)))\n    )\n    (property \"Value\" \""
      ++ v ++ S "\" (id 1) (at 0 -2.54 0)\n      (effects (font (size 1.27 1.27)))\n    )\n    (property \"Footprint\" \""
      ++ fp ++ S "\" (id 2) (at 0 -10.16 0)\n      (effects (font (size 1.27 1.27) italic) hide)\n    )\n    (property \"Datasheet\" \""
      ++ dsv ++ S "\" (id 3) (at -2.286 0.127 0)\n      (effects (font (size 1.27 1.27)) (justify left) hide)\n    )\n    (property \"ki_keywords\" \""
      ++ cid ++ S "\" (id 4) (at 0 0 0)\n      (effects (font (size 1.27 1.27)) hide)\n    )\n    ",
    S "\n      (effects (font (size 1.27 1.27)) hide)\n    )\n    "
      ++ get_type_values_properties 6 tvs ++ dr ++ S "\n  )\n", ?_⟩
  unfold render_record
  rw [show S "\" (id 4) (at 0 0 0)\n      (effects (font (size 1.27 1.27)) hide)\n    )\n    (property \"LCSC\" \""
      = S "\" (id 4) (at 0 0 0)\n      (effects (font (size 1.27 1.27)) hide)\n    )\n    "
        ++ S "(property \"LCSC\" \"" from rfl]
  rw [show S "\" (id 5) (at 0 0 0)\n      (effects (font (size 1.27 1.27)) hide)\n    )\n    "
      = S "\" (id 5) (at 0 0 0)" ++ S "\n      (effects (font (size 1.27 1.27)) hide)\n    )\n    "
      from rfl]
  simp [List.append_assoc]

theorem render_record_gtvp_decomp (n pre v fp dsv cid : Str)
    (tvs : List (Str × Str)) (dr : Str) :
    ∃ a b, render_record n pre v fp dsv cid tvs dr
      = a ++ get_type_values_properties 6 tvs ++ b := by
  refine ⟨S "  (symbol \"" ++ n
      ++ S "\" (pin_names hide) (pin_numbers hide) (in_bom yes) (on_board yes)\n    (property \"Reference\" \""
      ++ pre ++ S "\" (id 0) (at 0 1.27 0)\n      (effects (font (size 1.27 1.27)))\n    )\n    (property \"Value\" \""
      ++ v ++ S "\" (id 1) (at 0 -2.54 0)\n      (effects (font (size 1.27 1.27)))\n    )\n    (property \"Footprint\" \""
      ++ fp ++ S "\" (id 2) (at 0 -10.16 0)\n      (effects (font (size 1.27 1.27) italic) hide)\n    )\n    (property \"Datasheet\" \""
      ++ dsv ++ S "\" (id 3) (at -2.286 0.127 0)\n      (effects (font (size 1.27 1.27)) (justify left) hide)\n    )\n    (property \"ki_keywords\" \""
      ++ cid ++ S "\" (id 4) (at 0 0 0)\n      (effects (font (size 1.27 1.27)) hide)\n    )\n    (property \"LCSC\" \""
      ++ cid ++ S "\" (id 5) (at 0 0 0)\n      (effects (font (size 1.27 1.27)) hide)\n    )\n    ",
    dr ++ S "\n  )\n", ?_⟩
  unfold render_record
  simp [List.append_assoc]

/-- C10 counterexample: with an empty fetched title the canonical name
is empty and the enrichment-less `value = props.get("value","") or
ComponentName` computes to the empty string, so the record's rendered
Value property is `(property "Value" "" ...)` — the claim's "never the
empty string" fails at this concrete input. -/
theorem value_empty_on_empty_title :
    (runLoop [S "u"] none [(S "u", some ⟨S "", S "R", [], S ""⟩)]
        (initState (S "D"))).map (fun st => st.value) = some []
    ∧ (runLoop [S "u"] none [(S "u", some ⟨S "", S "R", [], S ""⟩)]
        (initState (S "D"))).map
        (fun st => containsB (S "(property \"Value\" \"\" (id 1)")
          (render_record st.componentName st.symmbolPre st.value (S "F1") st.datasheet
            (S "C1") st.typesValues st.drawing)) = some true := by
  decide

/-- C10 (amended): whenever the enrichment lookup yields no non-empty
"value" field (no mapping at all — in particular when the database path
does not exist — or a mapping with an empty value), the assembled value
equals the canonical component name, the rendered record carries
exactly that text in its Value property, and the Value property is
non-empty whenever the fetched title is non-empty.  (The unconditional
"never empty" of the original claim fails for an empty fetched title.) -/
theorem value_falls_back_to_name (u t preR dbody ds fp cid : Str)
    (cpara : List (Str × Str)) (db : Option Enrich)
    (hdb : db = none ∨ ∃ e, db = some e ∧ e.value = []) :
    ∃ st, runLoop [u] db [(u, some ⟨t, preR, cpara, dbody⟩)] (initState ds) = some st
      ∧ st.value = st.componentName
      ∧ st.componentName = sanitize t
      ∧ (t ≠ [] → st.value ≠ [])
      ∧ (∃ a b, render_record st.componentName st.symmbolPre st.value fp st.datasheet cid
            st.typesValues st.drawing
          = a ++ (S "(property \"Value\" \"" ++ sanitize t ++ S "\"") ++ b) := by
  rcases hdb with rfl | ⟨e, rfl, he⟩
  · refine ⟨_, runLoop_single_none u t preR dbody ds cpara, rfl, rfl, ?_, ?_⟩
    · intro ht
      exact sanitize_ne_nil t ht
    · exact render_record_value_decomp _ _ _ _ _ _ _ _
  · refine ⟨_, runLoop_single_emptyval u t preR dbody ds cpara e he, rfl, rfl, ?_, ?_⟩
    · intro ht
      exact sanitize_ne_nil t ht
    · exact render_record_value_decomp _ _ _ _ _ _ _ _

theorem value_falls_back_to_name_witness :
    ∃ st, runLoop [S "u"] none [(S "u", some ⟨S "T one", S "R?", [], S "DRAW"⟩)]
        (initState (S "D")) = some st
      ∧ st.value = st.componentName
      ∧ st.componentName = sanitize (S "T one")
      ∧ (S "T one" ≠ [] → st.value ≠ [])
      ∧ (∃ a b, render_record st.componentName st.symmbolPre st.value (S "F1") st.datasheet
            (S "C100001") st.typesValues st.drawing
          = a ++ (S "(property \"Value\" \"" ++ sanitize (S "T one") ++ S "\"") ++ b) :=
  value_falls_back_to_name (S "u") (S "T one") (S "R?") (S "DRAW") (S "D") (S "F1")
    (S "C100001") [] none (Or.inl rfl)

/-- C5 counterexample: in the single-sub-part, no-enrichment-database
scenario with catalog id "C100001", the assembled dynamic attribute
list is not empty — `create_symbol` unconditionally appends the three
enrichment-derived pairs (JLCDescription, Manufacturer, MFR.Part.#)
with empty values, and the rendered record carries
`(property "JLCDescription" "" (id 6) ...)` — contradicting the
claim's "no dynamic attribute properties". -/
theorem enrichment_placeholders_present :
    (runLoop [S "u"] none [(S "u", some ⟨S "T", S "R?", [], S "DRAW"⟩)]
        (initState (S "D"))).map (fun st => st.typesValues)
      = some [(S "JLCDescription", []), (S "Manufacturer", []), (S "MFR.Part.#", [])]
    ∧ (create_symbol [(S "u", some ⟨S "T", S "R?", [], S "DRAW"⟩)] (S "F1") (S "D")
        (S "C100001") none false (template_lib_header ++ template_lib_footer)).2.map
        (fun r => containsB (S "(property \"JLCDescription\" \"\" (id 6)") r) = some true := by
  decide

/-- C5 (amended): for a component with a single sub-part, catalog id
"C100001", footprint "F1" and no enrichment database, merging into a
container `P ++ ")\n"` that holds no record of the name yields exactly
`P ++ record ++ ")\n"` — the container gains exactly one new record —
and that record is named after the sanitized title, carries the fixed
property `(property "LCSC" "C100001" (id 5) (at 0 0 0) ...)`, and has
as its dynamic attribute block not nothing but exactly the three
enrichment-placeholder properties JLCDescription / Manufacturer /
MFR.Part.# with empty values at ids 6, 7, 8.  (The original claim's
"no dynamic attribute properties" is refuted by the counterexample.) -/
theorem single_subpart_merge (u t preR dbody ds P : Str) (cpara : List (Str × Str))
    (skip : Bool)
    (hctv : ctvOf cpara = [])
    (hnc : containsB (symbolCheck (sanitize t)) (P ++ template_lib_footer) = false) :
    ∃ r, create_symbol [(u, some ⟨t, preR, cpara, dbody⟩)] (S "F1") ds (S "C100001")
        none skip (P ++ template_lib_footer)
      = (P ++ r ++ template_lib_footer, some r)
    ∧ (∃ b, r = S "  (symbol \"" ++ sanitize t ++ S "\" " ++ b)
    ∧ (∃ a b, r = a ++ S "(property \"LCSC\" \"C100001\" (id 5) (at 0 0 0)" ++ b)
    ∧ (∃ a b, r = a ++ get_type_values_properties 6
        [(S "JLCDescription", []), (S "Manufacturer", []), (S "MFR.Part.#", [])] ++ b) := by
  have hrun := runLoop_single_none u t preR dbody ds cpara
  rw [hctv] at hrun
  simp only [List.nil_append] at hrun
  refine ⟨render_record (sanitize t) (replaceChar '?' [] preR) (sanitize t) (S "F1") ds
      (S "C100001")
      [(S "JLCDescription", []), (S "Manufacturer", []), (S "MFR.Part.#", [])]
      (S "\n    (symbol \"" ++ (sanitize t ++ S "_0") ++ S "_1\"" ++ dbody ++ S "\n    )"),
    ?_, ?_, ?_, ?_⟩
  · have hcs : create_symbol [(u, some ⟨t, preR, cpara, dbody⟩)] (S "F1") ds (S "C100001")
        none skip (P ++ template_lib_footer)
        = (update_library skip (sanitize t)
            (render_record (sanitize t) (replaceChar '?' [] preR) (sanitize t) (S "F1") ds
              (S "C100001")
              [(S "JLCDescription", []), (S "Manufacturer", []), (S "MFR.Part.#", [])]
              (S "\n    (symbol \"" ++ (sanitize t ++ S "_0") ++ S "_1\"" ++ dbody ++ S "\n    )"))
            (P ++ template_lib_footer),
          some (render_record (sanitize t) (replaceChar '?' [] preR) (sanitize t) (S "F1") ds
            (S "C100001")
            [(S "JLCDescription", []), (S "Manufacturer", []), (S "MFR.Part.#", [])]
            (S "\n    (symbol \"" ++ (sanitize t ++ S "_0") ++ S "_1\"" ++ dbody ++ S "\n    )"))) := by
      unfold create_symbol
      rw [show ([(u, some (⟨t, preR, cpara, dbody⟩ : SubPart))].map Prod.fst) = [u] from rfl]
      rw [hrun]
    rw [hcs, update_library_insert (sanitize t) P _ skip hnc]
  · exact render_record_opener_decomp _ _ _ _ _ _ _ _
  · obtain ⟨a, b, hab⟩ := render_record_lcsc_decomp (sanitize t) (replaceChar '?' [] preR)
      (sanitize t) (S "F1") ds (S "C100001")
      [(S "JLCDescription", []), (S "Manufacturer", []), (S "MFR.Part.#", [])]
      (S "\n    (symbol \"" ++ (sanitize t ++ S "_0") ++ S "_1\"" ++ dbody ++ S "\n    )")
    refine ⟨a, b, ?_⟩
    rw [hab]
    rw [show S "(property \"LCSC\" \"" ++ S "C100001" ++ S "\" (id 5) (at 0 0 0)"
        = S "(property \"LCSC\" \"C100001\" (id 5) (at 0 0 0)" from rfl]
  · exact render_record_gtvp_decomp _ _ _ _ _ _ _ _

theorem single_subpart_merge_witness :
    ∃ r, create_symbol [(S "u", some ⟨S "T", S "R?", [], S "DRAW"⟩)] (S "F1") (S "D")
        (S "C100001") none false (template_lib_header ++ template_lib_footer)
      = (template_lib_header ++ r ++ template_lib_footer, some r)
    ∧ (∃ b, r = S "  (symbol \"" ++ sanitize (S "T") ++ S "\" " ++ b)
    ∧ (∃ a b, r = a ++ S "(property \"LCSC\" \"C100001\" (id 5) (at 0 0 0)" ++ b)
    ∧ (∃ a b, r = a ++ get_type_values_properties 6
        [(S "JLCDescription", []), (S "Manufacturer", []), (S "MFR.Part.#", [])] ++ b) :=
  single_subpart_merge (S "u") (S "T") (S "R?") (S "DRAW") (S "D") template_lib_header
    [] false (by decide) (by decide)
